import Mathlib

/-!
Shallow embedding of `src/app.py` (a LINE-webhook relay to NotebookLM):
the prompt policy, the cross-thread query bridge, the session lifecycle
(initialization and keep-alive refresh), and the message handler's
error taxonomy, each translated from the source functions.
Python strings are modelled as `List Char`; the Python operations used by
the source (`in` substring test, `str.lower`, `str.strip`) are modelled
on ASCII, which covers every literal occurring in the source.
-/

namespace App

/-- Python `needle == hay[:len(needle)]`: `needle` is an initial segment of `hay`. -/
def startsWithL : List Char → List Char → Bool
  | [], _ => true
  | _ :: _, [] => false
  | n :: ns, h :: hs => n == h && startsWithL ns hs

/-- Python `needle in hay` for strings: substring containment. -/
def containsSub (needle : List Char) : List Char → Bool
  | [] => needle.isEmpty
  | c :: hs => startsWithL needle (c :: hs) || containsSub needle hs

/-- Python `str.lower` restricted to ASCII (all source literals are ASCII or Han). -/
def pyLower (s : List Char) : List Char := s.map Char.toLower

/-- Python `str.isspace` on the ASCII whitespace characters. -/
def pyIsSpace (c : Char) : Bool :=
  c == ' ' || c == '\t' || c == '\n' || c == '\r' || c == '\u000B' || c == '\u000C'

/-- Python `str.strip()`: drop leading and trailing whitespace. -/
def pyStrip (s : List Char) : List Char :=
  ((s.dropWhile pyIsSpace).reverse.dropWhile pyIsSpace).reverse

/-- The fixed disclaimer footer `DISCLAIMER` (app.py line 27). -/
def DISCLAIMER : List Char :=
  "\n\n(註：預設為簡短摘要。如需詳細回答請在問題中包含「詳細」二字，但等待時間會較長。)\n(免責聲明：此資訊僅供輔助參考，臨床決策請依專業判斷)".data

/-- The short-circuit string returned by `query_notebooklm_async` when
`global_client` is unset (app.py line 108). -/
def STARTUP_MSG : List Char := "系統啟動中或連線失敗，請稍後再試。".data

/-- The "busy / cannot read data" reply used when the bridge returns a falsy
answer (app.py line 175). -/
def BUSY_MSG : List Char := "系統忙碌中或無法讀取資料，請稍後再試。".data

/-- The "query timed out" reply (app.py line 191). -/
def TIMEOUT_MSG : List Char := "查詢逾時，可能是問題太複雜或系統忙碌，請稍後再試。".data

/-- The generic error reply (app.py line 199). -/
def GENERIC_ERR_MSG : List Char := "系統發生錯誤，請稍後再試。".data

/-- The language-specific detail trigger `"詳細"` (app.py line 112). -/
def DETAIL_ZH : List Char := "詳細".data

/-- The English detail trigger `"detail"` (app.py line 112). -/
def DETAIL_EN : List Char := "detail".data

/-- Suffix of the detailed-mode prompt (app.py line 113), including the
separating space of the f-string. -/
def DETAILED_SUFFIX : List Char :=
  " 請根據論文內容，以繁體中文提供給醫師專業的詳細解答，並附上關鍵數據。".data

/-- Suffix of the concise-mode prompt (app.py line 115). -/
def CONCISE_SUFFIX : List Char :=
  " 請根據論文內容，以繁體中文簡潔回應重點摘要。".data

/-- Verbosity mode chosen by the prompt policy. -/
inductive Mode : Type
  | detailed
  | concise
deriving DecidableEq, Repr

/-- The trigger test of app.py line 112:
`"詳細" in user_query or "detail" in user_query.lower()`. -/
def detailTrigger (userQuery : List Char) : Bool :=
  containsSub DETAIL_ZH userQuery || containsSub DETAIL_EN (pyLower userQuery)

/-- The prompt construction of app.py lines 111-115: returns the prompt string
handed to the upstream `ask` together with the verbosity mode. -/
def buildPrompt (userQuery : List Char) : List Char × Mode :=
  if detailTrigger userQuery then
    (userQuery ++ DETAILED_SUFFIX, Mode.detailed)
  else
    (userQuery ++ CONCISE_SUFFIX, Mode.concise)

/-- Behaviour of one upstream `client.chat.ask` call: it either returns an
answer object whose `.answer` field is a string, or raises an exception. -/
inductive AskBehavior : Type
  | answers (a : List Char)
  | raises
deriving DecidableEq

/-- Observable outcome of one run of the coroutine `query_notebooklm_async`:
the Python return value (`none` models Python `None`), and the list of prompt
strings passed to the upstream `ask` (its length is the number of `ask` calls). -/
structure QueryOutcome : Type where
  result : Option (List Char)
  askPrompts : List (List Char)
deriving DecidableEq

/-- Embedding of `query_notebooklm_async` (app.py lines 103-125).
`live` models `global_client` being set. If the client is unset the function
returns the startup string without touching the upstream; otherwise it builds
the prompt, calls `ask` once, and returns the answer on success or `None`
when the call raises (the `except Exception` of line 122 converts every
upstream error into `None`; no exception escapes the coroutine). -/
def query_notebooklm_async (live : Bool) (ask : AskBehavior) (userQuery : List Char) :
    QueryOutcome :=
  if ¬ live then
    ⟨some STARTUP_MSG, []⟩
  else
    let p := (buildPrompt userQuery).1
    match ask with
    | AskBehavior.answers a => ⟨some a, [p]⟩
    | AskBehavior.raises => ⟨none, [p]⟩

/-- Result of the cross-thread wait `future.result(timeout=...)`
(app.py line 170): either the coroutine's value, or a timeout signal. -/
inductive BridgeResult : Type
  | result (r : Option (List Char))
  | timeoutFailure
deriving DecidableEq

/-- Embedding of the query bridge: `asyncio.run_coroutine_threadsafe` plus
`future.result(timeout=deadline)`. `completesAt` is the instant the coroutine
finishes; the wait returns the coroutine's value when it completes within the
deadline and raises the timeout (modelled as `timeoutFailure`) otherwise.
The in-flight coroutine is not cancelled in either case. -/
def submitAndWait (coroutineResult : Option (List Char)) (completesAt deadline : Nat) :
    BridgeResult :=
  if completesAt ≤ deadline then BridgeResult.result coroutineResult
  else BridgeResult.timeoutFailure

/-- The deadline passed to `future.result` (app.py line 170). -/
def DEADLINE : Nat := 90

/-- Observable outcome of one run of `handle_message`: the texts passed to
`line_bot_api.reply_message` in order (whether or not the send succeeded),
whether an exception escaped the handler, and the outcome of the background
coroutine (which runs to completion even when the caller times out). -/
structure HMOut : Type where
  attempts : List (List Char)
  escaped : Bool
  query : QueryOutcome
deriving DecidableEq

/-- Python truthiness of the bridge's value: `None` and `""` are falsy. -/
def truthy : Option (List Char) → Bool
  | none => false
  | some a => !a.isEmpty

/-- Embedding of `handle_message` (app.py lines 149-200).
`send1Fails` / `send2Fails` model whether the first / second
`reply_message` call raises. The handler strips the inbound text, waits on
the bridge with `DEADLINE`, and then:
on a value, sends `answer + DISCLAIMER` when the value is truthy and the
busy message otherwise — if that send raises, the outer `except Exception`
(line 195) sends the generic error message, and a failure of that second
send escapes the handler; on a timeout, sends the fixed timeout message
inside its own try/except, so a send failure there is swallowed. -/
def handle_message (text : List Char) (live : Bool) (ask : AskBehavior)
    (completesAt : Nat) (send1Fails send2Fails : Bool) : HMOut :=
  let userMsg := pyStrip text
  let q := query_notebooklm_async live ask userMsg
  match submitAndWait q.result completesAt DEADLINE with
  | BridgeResult.result answer =>
      let finalReply :=
        if truthy answer then (answer.getD []) ++ DISCLAIMER else BUSY_MSG
      if send1Fails then
        ⟨[finalReply, GENERIC_ERR_MSG], send2Fails, q⟩
      else
        ⟨[finalReply], false, q⟩
  | BridgeResult.timeoutFailure =>
      ⟨[TIMEOUT_MSG], false, q⟩

/-- HTTP response of the webhook endpoint. -/
inductive HttpResp : Type
  | ok
  | badRequest
  | serverError
deriving DecidableEq

/-- Embedding of `callback` (app.py lines 129-145). `handler.handle` re-raises
any exception escaping `handle_message`; `callback` catches only
`InvalidSignatureError` (mapped to 400), so an escaped handler exception
propagates to Flask, which answers with a server error instead of `'OK'`. -/
def callback (sigValid : Bool) (hm : HMOut) : HttpResp :=
  if ¬ sigValid then HttpResp.badRequest
  else if hm.escaped then HttpResp.serverError
  else HttpResp.ok

/-- Embedding of `init_notebook_client` (app.py lines 47-67): the three
fallible steps are `NotebookLMClient.from_storage`, `__aenter__`, and
`sources.list`. Returns (`global_client` set?, cached `global_source_ids`).
`global_client` is assigned on line 58, before the source-list prefetch on
line 62; the `except Exception` only logs, so a prefetch failure leaves the
client set and the process running. -/
def init_notebook_client (fromStorageOk aenterOk listOk : Bool) (ids : List Nat) :
    Bool × Option (List Nat) :=
  if ¬ fromStorageOk then (false, none)
  else if ¬ aenterOk then (false, none)
  else if ¬ listOk then (true, none)
  else (true, some ids)

/-- The keep-alive sleep interval in seconds (app.py line 75). -/
def KEEP_ALIVE_INTERVAL : Nat := 600

/-- One cycle of the `keep_alive` loop body (app.py lines 74-82): after the
sleep, if `global_client` is set, `refresh_auth` is attempted once and any
exception is swallowed; liveness is never written. Returns the refresh-call
count contributed by this cycle. -/
def keep_alive_cycle (live : Bool) (_refreshFails : Bool) : Nat :=
  if live then 1 else 0

/-- Running the `keep_alive` loop for one cycle per entry of `outcomes`
(each entry records whether that cycle's `refresh_auth` raises). Returns the
liveness flag after the run and the total number of `refresh_auth` calls.
The loop body never terminates the loop and never mutates `global_client`,
so liveness is threaded through unchanged. -/
def keep_alive_run (live : Bool) : List Bool → Bool × Nat
  | [] => (live, 0)
  | f :: rest =>
      let r := keep_alive_run live rest
      (r.1, keep_alive_cycle live f + r.2)

/-! Cooperative-scheduling model for the single background event loop
(app.py lines 84-101). The loop thread executes one step at a time; each
awaited call against the upstream connection is modelled by a begin event
(the coroutine issues the call and suspends) and an end event (the await
completes). While a coroutine is suspended, the loop may run steps of
another coroutine: admissible executions are order-preserving interleavings
of the coroutines' event lists. -/

/-- An event on the upstream connection, executed by the loop thread. -/
inductive LoopEvent : Type
  | askBegin
  | askEnd
  | refreshBegin
  | refreshEnd
deriving DecidableEq

/-- Connection events of the `await global_client.chat.ask` call issued by
`query_notebooklm_async` (app.py line 120). -/
def askTask : List LoopEvent := [LoopEvent.askBegin, LoopEvent.askEnd]

/-- Connection events of the `await global_client.refresh_auth()` call issued
by a `keep_alive` cycle (app.py line 79). -/
def refreshTask : List LoopEvent := [LoopEvent.refreshBegin, LoopEvent.refreshEnd]

/-- `Merge a b t`: trace `t` is an admissible execution of the single event
loop running coroutines `a` and `b`: one event at a time, each coroutine's
events in program order, interleaving permitted only between events (i.e. at
suspension points). -/
inductive Merge : List LoopEvent → List LoopEvent → List LoopEvent → Prop
  | nil : Merge [] [] []
  | left {a : LoopEvent} {as bs cs : List LoopEvent} :
      Merge as bs cs → Merge (a :: as) bs (a :: cs)
  | right {b : LoopEvent} {as bs cs : List LoopEvent} :
      Merge as bs cs → Merge as (b :: bs) (b :: cs)

/-- Trace `t` has a refresh operation beginning while an ask operation is
still in flight on the connection: the connection serves two of the
operations concurrently. -/
def twoOpsInFlight (t : List LoopEvent) : Prop :=
  ∃ i j k : Nat, i < j ∧ j < k ∧
    t.get? i = some LoopEvent.askBegin ∧
    t.get? j = some LoopEvent.refreshBegin ∧
    t.get? k = some LoopEvent.askEnd

/-! Theorems settling the claims. -/

/-- C1: if the coroutine running `query_notebooklm_async` over a live session
completes before the caller's deadline, the cross-thread wait returns exactly
its result — the answer string when the upstream `ask` succeeds, `None`
(the null signal, never an exception) when it raises; if it does not complete
before the deadline, the wait returns the timeout failure regardless of what
the ask eventually returns. -/
theorem C1_bridge_returns_exact_result (ask : AskBehavior) (q : List Char) (t d : Nat) :
    (t ≤ d →
      submitAndWait (query_notebooklm_async true ask q).result t d =
        BridgeResult.result
          (match ask with
            | AskBehavior.answers a => some a
            | AskBehavior.raises => none)) ∧
    (d < t →
      submitAndWait (query_notebooklm_async true ask q).result t d =
        BridgeResult.timeoutFailure) := by
  refine ⟨fun h => ?_, fun h => ?_⟩
  · cases ask <;> simp [submitAndWait, query_notebooklm_async, h]
  · simp [submitAndWait, Nat.not_le.mpr h]

/-- Witness for C1 at concrete inputs: completion at 3 with deadline 90
returns the answer; completion at 91 with deadline 90 returns the timeout. -/
theorem C1_bridge_returns_exact_result_witness :
    submitAndWait (query_notebooklm_async true (AskBehavior.answers ['h']) ['q']).result 3 90 =
      BridgeResult.result (some ['h']) ∧
    submitAndWait (query_notebooklm_async true (AskBehavior.answers ['h']) ['q']).result 91 90 =
      BridgeResult.timeoutFailure :=
  ⟨(C1_bridge_returns_exact_result (AskBehavior.answers ['h']) ['q'] 3 90).1 (by decide),
   (C1_bridge_returns_exact_result (AskBehavior.answers ['h']) ['q'] 91 90).2 (by decide)⟩

/-- C2: the prompt policy is a total function of the input text; whenever the
text contains the language-specific trigger, or the English synonym matched
case-insensitively, it produces the detailed-mode prompt (the query followed
by the professional-depth instruction); otherwise it produces the
concise-summary prompt. -/
theorem C2_prompt_policy (q : List Char) :
    buildPrompt q =
      if containsSub DETAIL_ZH q || containsSub (pyLower DETAIL_EN) (pyLower q) then
        (q ++ DETAILED_SUFFIX, Mode.detailed)
      else
        (q ++ CONCISE_SUFFIX, Mode.concise) := by
  have h : pyLower DETAIL_EN = DETAIL_EN := by decide
  rw [h]
  rfl

/-- C3 counterexample: with the session non-live, the reply attempted for the
user is the startup string with the disclaimer footer appended — the startup
string is truthy, so line 173 appends `DISCLAIMER` — and therefore does not
equal the fixed startup message alone, contradicting the claim's description
of the reply. (The zero-upstream-calls part of the claim does hold.) -/
theorem C3_counterexample :
    (handle_message ['h', 'i'] false AskBehavior.raises 0 false false).attempts =
      [STARTUP_MSG ++ DISCLAIMER] ∧
    (handle_message ['h', 'i'] false AskBehavior.raises 0 false false).attempts ≠
      [STARTUP_MSG] := by
  constructor
  · rfl
  · decide

/-- C3 amended: whenever the session is non-live, the coroutine
short-circuits with the startup signal and makes zero calls to the upstream
`ask`, and (when the short-circuit completes within the deadline) the reply
attempted for the user is the fixed startup message with the disclaimer
footer appended. -/
theorem C3_nonlive_short_circuits (text : List Char) (ask : AskBehavior) (t : Nat)
    (s1 s2 : Bool) (h : t ≤ DEADLINE) :
    (handle_message text false ask t s1 s2).query.askPrompts = [] ∧
    (query_notebooklm_async false ask (pyStrip text)).result = some STARTUP_MSG ∧
    (handle_message text false ask t s1 s2).attempts.head? =
      some (STARTUP_MSG ++ DISCLAIMER) := by
  have hq : query_notebooklm_async false ask (pyStrip text) = ⟨some STARTUP_MSG, []⟩ := by
    simp [query_notebooklm_async]
  have htr : truthy (some STARTUP_MSG) = true := by decide
  refine ⟨?_, ?_, ?_⟩ <;>
    cases s1 <;>
      simp [handle_message, hq, submitAndWait, h, htr, Option.getD]

/-- Witness for C3 amended at a concrete non-live run. -/
theorem C3_nonlive_short_circuits_witness :
    (handle_message [] false AskBehavior.raises 0 false false).query.askPrompts = [] ∧
    (query_notebooklm_async false AskBehavior.raises (pyStrip [])).result = some STARTUP_MSG ∧
    (handle_message [] false AskBehavior.raises 0 false false).attempts.head? =
      some (STARTUP_MSG ++ DISCLAIMER) :=
  C3_nonlive_short_circuits [] AskBehavior.raises 0 false false (by decide)

/-- C4 counterexample: when the connect and auth steps succeed but the
source-list prefetch fails, `global_client` has already been assigned
(app.py line 58 precedes line 62), so the liveness flag is left true rather
than false, contradicting the claim for the prefetch failure point. -/
theorem C4_counterexample :
    (init_notebook_client true true false []).1 = true ∧
    (init_notebook_client true true false []).2 = none := by
  decide

/-- C4 amended: the liveness flag ends up true exactly when the connect and
auth steps both succeed (a prefetch failure leaves the session live, with no
cached source ids); initialization never crashes the process, and whenever
the flag is left false every subsequent query short-circuits with the
user-visible startup signal and no upstream call. -/
theorem C4_init_failure_degraded_mode (fs en lst : Bool) (ids : List Nat) :
    (init_notebook_client fs en lst ids).1 = (fs && en) ∧
    ((fs && en) = false →
      ∀ (ask : AskBehavior) (q : List Char),
        query_notebooklm_async (init_notebook_client fs en lst ids).1 ask q =
          ⟨some STARTUP_MSG, []⟩) := by
  cases fs <;> cases en <;> cases lst <;>
    simp [init_notebook_client, query_notebooklm_async]

/-- Witness for C4 amended: a failed connect leaves the flag false and a
subsequent query short-circuits. -/
theorem C4_init_failure_degraded_mode_witness :
    (init_notebook_client false true true []).1 = (false && true) ∧
    query_notebooklm_async (init_notebook_client false true true []).1
        AskBehavior.raises ['q'] = ⟨some STARTUP_MSG, []⟩ :=
  ⟨(C4_init_failure_degraded_mode false true true []).1,
   (C4_init_failure_degraded_mode false true true []).2 (by decide) AskBehavior.raises ['q']⟩

/-- C5 counterexample: with a valid signature, a live session, an answer
within the deadline, and both reply sends raising, the first send's failure
is caught by the generic `except Exception` branch (line 195), but that
branch's own `reply_message` call (lines 197-200) is not wrapped in any
try/except, so its failure escapes `handle_message`, propagates through
`handler.handle`, and the webhook returns a server error instead of the
success acknowledgment — and the second reply-handle failure is re-raised
rather than merely logged. -/
theorem C5_counterexample :
    (handle_message ['h'] true (AskBehavior.answers ['a']) 0 true true).escaped = true ∧
    callback true (handle_message ['h'] true (AskBehavior.answers ['a']) 0 true true) =
      HttpResp.serverError := by
  constructor
  · rfl
  · rfl

/-- C5 amended: after signature validation, the webhook returns the success
acknowledgment exactly when no exception escapes `handle_message`; an
exception escapes exactly when the bridge returned within the deadline and
both the primary reply send and the generic-error-branch reply send fail
(timeout-branch send failures are always swallowed, so the timeout path never
breaks the acknowledgment). -/
theorem C5_webhook_ack (text : List Char) (live : Bool) (ask : AskBehavior)
    (t : Nat) (s1 s2 : Bool) :
    ((handle_message text live ask t s1 s2).escaped = true ↔
      (t ≤ DEADLINE ∧ s1 = true ∧ s2 = true)) ∧
    (callback true (handle_message text live ask t s1 s2) = HttpResp.ok ↔
      (handle_message text live ask t s1 s2).escaped = false) := by
  by_cases h : t ≤ DEADLINE <;>
    cases s1 <;> cases s2 <;>
      simp [handle_message, submitAndWait, callback, h]

/-- Witness for C5 amended at a concrete run (timeout path, failing send). -/
theorem C5_webhook_ack_witness :
    ((handle_message [] true AskBehavior.raises 91 true true).escaped = true ↔
      (91 ≤ DEADLINE ∧ true = true ∧ true = true)) ∧
    (callback true (handle_message [] true AskBehavior.raises 91 true true) = HttpResp.ok ↔
      (handle_message [] true AskBehavior.raises 91 true true).escaped = false) :=
  C5_webhook_ack [] true AskBehavior.raises 91 true true

/-- C6: the keep-alive loop sleeps a fixed 600-second interval, attempts a
refresh only when the session is live, swallows every refresh failure without
changing liveness, and keeps firing: over any sequence of cycles with a live
session the number of refresh attempts equals the number of cycles regardless
of how many of them fail, and in particular N consecutive failures are
followed by a refresh attempt on every one of N+1 intervals. -/
theorem C6_keep_alive_survives_failures (live : Bool) (outcomes : List Bool) :
    KEEP_ALIVE_INTERVAL = 600 ∧
    keep_alive_run live outcomes = (live, if live then outcomes.length else 0) ∧
    (∀ n : Nat, keep_alive_run true (List.replicate (n + 1) true) = (true, n + 1)) := by
  have key : ∀ (l : Bool) (os : List Bool),
      keep_alive_run l os = (l, if l then os.length else 0) := by
    intro l os
    induction os with
    | nil => simp [keep_alive_run]
    | cons f rest ih =>
        cases l <;> simp [keep_alive_run, keep_alive_cycle, ih, Nat.add_comm]
  refine ⟨rfl, key live outcomes, fun n => ?_⟩
  simp [key true (List.replicate (n + 1) true)]

/-- C7: when the ask coroutine completes only after the deadline, the only
reply attempted is the fixed timeout message, any failure of that send is
swallowed (no exception escapes), the in-flight coroutine is not cancelled
(when live, the upstream ask is still invoked exactly once), and the
late-arriving result is discarded: no message derived from the answer is
ever among the attempted replies. -/
theorem C7_timeout_discards_late_result (text : List Char) (live : Bool)
    (ask : AskBehavior) (t : Nat) (s1 s2 : Bool) (h : DEADLINE < t) :
    (handle_message text live ask t s1 s2).attempts = [TIMEOUT_MSG] ∧
    (handle_message text live ask t s1 s2).escaped = false ∧
    (live = true → (handle_message text live ask t s1 s2).query.askPrompts.length = 1) ∧
    (∀ a : List Char,
      (a ++ DISCLAIMER) ∉ (handle_message text live ask t s1 s2).attempts) := by
  have hb : submitAndWait (query_notebooklm_async live ask (pyStrip text)).result t DEADLINE =
      BridgeResult.timeoutFailure := by
    simp [submitAndWait, Nat.not_le.mpr h]
  have hm : handle_message text live ask t s1 s2 =
      ⟨[TIMEOUT_MSG], false, query_notebooklm_async live ask (pyStrip text)⟩ := by
    simp [handle_message, hb]
  have hlen : TIMEOUT_MSG.length < DISCLAIMER.length := by decide
  refine ⟨by rw [hm], by rw [hm], fun hl => ?_, fun a hmem => ?_⟩
  · subst hl
    rw [hm]
    cases ask <;> simp [query_notebooklm_async]
  · rw [hm] at hmem
    simp only [List.mem_singleton] at hmem
    have := congrArg List.length hmem
    simp [List.length_append] at this
    omega

/-- Witness for C7 at a concrete timed-out run. -/
theorem C7_timeout_discards_late_result_witness :
    (handle_message [] true (AskBehavior.answers ['a']) 91 true false).attempts =
      [TIMEOUT_MSG] ∧
    (handle_message [] true (AskBehavior.answers ['a']) 91 true false).escaped = false ∧
    (handle_message [] true (AskBehavior.answers ['a']) 91 true false).query.askPrompts.length = 1 ∧
    (['a'] ++ DISCLAIMER) ∉
      (handle_message [] true (AskBehavior.answers ['a']) 91 true false).attempts :=
  have h := C7_timeout_discards_late_result [] true (AskBehavior.answers ['a']) 91 true false
    (by decide)
  ⟨h.1, h.2.1, h.2.2.1 rfl, h.2.2.2 ['a']⟩

/-- C8 counterexample: a query answered within the deadline with the empty
answer string does not yield the answer plus disclaimer — the empty string is
falsy at line 172, so the handler sends the busy message instead,
contradicting the claim's universal quantification over answered queries. -/
theorem C8_counterexample :
    (handle_message ['q'] true (AskBehavior.answers []) 0 false false).attempts =
      [BUSY_MSG] ∧
    (handle_message ['q'] true (AskBehavior.answers []) 0 false false).attempts ≠
      [([] : List Char) ++ DISCLAIMER] := by
  constructor
  · rfl
  · decide

/-- C8 amended: for every query answered with a non-empty answer string
within the deadline while the session is live, the reply attempted via the
reply handle is exactly the answer string with the fixed disclaimer footer
appended; an empty answer string is instead treated like an upstream failure
and yields the busy message. -/
theorem C8_reply_is_answer_plus_disclaimer (text a : List Char) (t : Nat)
    (s1 s2 : Bool) (hne : a ≠ []) (ht : t ≤ DEADLINE) :
    (handle_message text true (AskBehavior.answers a) t s1 s2).attempts.head? =
      some (a ++ DISCLAIMER) := by
  have hq : query_notebooklm_async true (AskBehavior.answers a) (pyStrip text) =
      ⟨some a, [(buildPrompt (pyStrip text)).1]⟩ := by
    simp [query_notebooklm_async]
  have hie : a.isEmpty = false := by
    cases a with
    | nil => exact absurd rfl hne
    | cons c cs => rfl
  cases s1 <;>
    simp [handle_message, hq, submitAndWait, ht, truthy, hie, Option.getD]

/-- Witness for C8 amended: the spec's scenario, an ask returning
"Dosage is 10mg." within the deadline. -/
theorem C8_reply_is_answer_plus_disclaimer_witness :
    (handle_message "What is the treatment dosage?".data true
        (AskBehavior.answers "Dosage is 10mg.".data) 1 false false).attempts.head? =
      some ("Dosage is 10mg.".data ++ DISCLAIMER) :=
  C8_reply_is_answer_plus_disclaimer "What is the treatment dosage?".data
    "Dosage is 10mg.".data 1 false false (by decide) (by decide)

/-- C9 counterexample: an admissible execution of the single event loop in
which the keep-alive's `refresh_auth` begins while an `ask` is suspended
awaiting the upstream — the connection serves two of the operations
concurrently, contradicting the claim that it never does. -/
theorem C9_counterexample :
    Merge askTask refreshTask
      [LoopEvent.askBegin, LoopEvent.refreshBegin, LoopEvent.refreshEnd,
        LoopEvent.askEnd] ∧
    twoOpsInFlight
      [LoopEvent.askBegin, LoopEvent.refreshBegin, LoopEvent.refreshEnd,
        LoopEvent.askEnd] := by
  constructor
  · exact Merge.left (Merge.right (Merge.right (Merge.left Merge.nil)))
  · exact ⟨0, 1, 3, by decide, by decide, rfl, rfl, rfl⟩

/-- C9 amended: the single execution context does serialize the individual
steps — every admissible trace is one linear sequence of events executing one
at a time, containing each coroutine's events in program order and nothing
else — but whole `ask`/`refresh` operations may overlap across suspension
points, so the connection can have two operations in flight at once. -/
theorem C9_single_loop_serializes_steps (a b t : List LoopEvent) (h : Merge a b t) :
    List.Sublist a t ∧ List.Sublist b t ∧ t.length = a.length + b.length := by
  induction h with
  | nil => exact ⟨List.Sublist.slnil, List.Sublist.slnil, rfl⟩
  | left _ ih =>
      exact ⟨List.Sublist.cons₂ _ ih.1, List.Sublist.cons _ ih.2.1, by
        simp only [List.length_cons, ih.2.2]; omega⟩
  | right _ ih =>
      exact ⟨List.Sublist.cons _ ih.1, List.Sublist.cons₂ _ ih.2.1, by
        simp only [List.length_cons, ih.2.2]; omega⟩

/-- Witness for C9 amended at the concrete overlapping trace. -/
theorem C9_single_loop_serializes_steps_witness :
    List.Sublist askTask
      [LoopEvent.askBegin, LoopEvent.refreshBegin, LoopEvent.refreshEnd,
        LoopEvent.askEnd] ∧
    List.Sublist refreshTask
      [LoopEvent.askBegin, LoopEvent.refreshBegin, LoopEvent.refreshEnd,
        LoopEvent.askEnd] ∧
    ([LoopEvent.askBegin, LoopEvent.refreshBegin, LoopEvent.refreshEnd,
        LoopEvent.askEnd] : List LoopEvent).length =
      askTask.length + refreshTask.length :=
  C9_single_loop_serializes_steps askTask refreshTask
    [LoopEvent.askBegin, LoopEvent.refreshBegin, LoopEvent.refreshEnd,
      LoopEvent.askEnd]
    (Merge.left (Merge.right (Merge.right (Merge.left Merge.nil))))

/-- Dropping a predicate over an appended list skips a first block that
satisfies the predicate everywhere. -/
theorem dropWhile_append_all (p : Char → Bool) (l xs : List Char)
    (h : ∀ c ∈ l, p c = true) : (l ++ xs).dropWhile p = xs.dropWhile p := by
  induction l with
  | nil => rfl
  | cons c cs ih =>
      have hc : p c = true := h c (List.mem_cons_self c cs)
      rw [List.cons_append, List.dropWhile_cons, if_pos hc]
      exact ih fun d hd => h d (List.mem_cons_of_mem c hd)

/-- Stripping a whitespace-only text yields the empty query. -/
theorem pyStrip_all_space (text : List Char)
    (h : ∀ c ∈ text, pyIsSpace c = true) : pyStrip text = [] := by
  have h1 : text.dropWhile pyIsSpace = [] := by
    have := dropWhile_append_all pyIsSpace text [] h
    simpa using this
  simp [pyStrip, h1]

/-- Stripping leaves the detail trigger intact when it is surrounded only by
whitespace. -/
theorem pyStrip_space_wrap_detail (l r : List Char)
    (hl : ∀ c ∈ l, pyIsSpace c = true) (hr : ∀ c ∈ r, pyIsSpace c = true) :
    pyStrip (l ++ DETAIL_ZH ++ r) = DETAIL_ZH := by
  have hD : DETAIL_ZH = ['詳', '細'] := by decide
  have hjaw : pyIsSpace '詳' = false := by decide
  have h1 : (l ++ DETAIL_ZH ++ r).dropWhile pyIsSpace = DETAIL_ZH ++ r := by
    rw [List.append_assoc, dropWhile_append_all pyIsSpace l _ hl, hD,
      List.cons_append, List.dropWhile_cons, if_neg (by simp [hjaw])]
  have hrev : (['詳', '細'] : List Char).reverse = ['細', '詳'] := by decide
  have h2 : ((DETAIL_ZH ++ r).reverse).dropWhile pyIsSpace = ['細', '詳'] := by
    rw [hD, List.reverse_append, hrev,
      dropWhile_append_all pyIsSpace r.reverse _
        (fun c hc => hr c (List.mem_reverse.mp hc))]
    decide
  show ((((l ++ DETAIL_ZH ++ r).dropWhile pyIsSpace).reverse).dropWhile pyIsSpace).reverse =
    DETAIL_ZH
  rw [h1, h2]
  decide

/-- C10: the message handler strips leading and trailing whitespace from the
inbound text before any processing — the background coroutine's outcome
(including the prompt sent upstream) is exactly that of the stripped text —
so a whitespace-only message is processed as the empty query, and the detail
trigger surrounded only by whitespace still selects detailed mode. -/
theorem C10_handler_strips_text (text l r : List Char) (live : Bool)
    (ask : AskBehavior) (t : Nat) (s1 s2 : Bool) :
    ((handle_message text live ask t s1 s2).query =
      query_notebooklm_async live ask (pyStrip text)) ∧
    ((∀ c ∈ text, pyIsSpace c = true) → pyStrip text = []) ∧
    ((∀ c ∈ l, pyIsSpace c = true) → (∀ c ∈ r, pyIsSpace c = true) →
      (buildPrompt (pyStrip (l ++ DETAIL_ZH ++ r))).2 = Mode.detailed) := by
  refine ⟨?_, pyStrip_all_space text, fun hl hr => ?_⟩
  · cases hX : submitAndWait (query_notebooklm_async live ask (pyStrip text)).result
        t DEADLINE <;>
      cases s1 <;> simp [handle_message, hX]
  · rw [pyStrip_space_wrap_detail l r hl hr]
    decide

/-- Witness for C10 at concrete whitespace-wrapped inputs. -/
theorem C10_handler_strips_text_witness :
    ((handle_message [' '] true AskBehavior.raises 0 false false).query =
      query_notebooklm_async true AskBehavior.raises (pyStrip [' '])) ∧
    pyStrip [' '] = [] ∧
    (buildPrompt (pyStrip ([' '] ++ DETAIL_ZH ++ [' ', ' ']))).2 = Mode.detailed :=
  have h := C10_handler_strips_text [' '] [' '] [' ', ' '] true AskBehavior.raises
    0 false false
  ⟨h.1, h.2.1 (by decide), h.2.2 (by decide) (by decide)⟩

end App
